import Mathlib

/-!
Verification of the django-iban validation and normalization logic.

Strings are embedded as `List Char`.  The normalization step is translated
from `IBANField.to_python` in `src/django_iban/fields.py`; the IBAN and
SWIFT-BIC validators are referenced there (`self.validators.append(...)`)
but their bodies are not part of the source tree, so they are modelled
from the specification.
-/

namespace DjangoIban

/-- Removal of every occurrence of a character, the effect of Python's
`str.replace(old, '')` for a one-character `old`, as used in
`IBANField.to_python` (`src/django_iban/fields.py`, line 44). -/
def removeAll (c : Char) : List Char → List Char
  | [] => []
  | x :: xs => if x = c then removeAll c xs else x :: removeAll c xs

/-- Python's `str.upper()` on the ASCII range, applied characterwise:
`Char.toUpper` maps `'a'..'z'` to `'A'..'Z'` and fixes everything else. -/
def pyUpper (s : List Char) : List Char := s.map Char.toUpper

/-- The normalization performed by `IBANField.to_python` on a non-`None`
value (`src/django_iban/fields.py`, line 44):
`value.upper().replace(' ', '').replace('-', '')`. -/
def pyNormalize (s : List Char) : List Char :=
  removeAll '-' (removeAll ' ' (pyUpper s))

/-- `IBANField.to_python` (`src/django_iban/fields.py`, lines 41-45): the
parent conversion may yield `None`, which is passed through unchanged;
any other value is normalized. -/
def to_python (v : Option (List Char)) : Option (List Char) :=
  match v with
  | none => none
  | some s => some (pyNormalize s)

/- ### Character-level lemmas -/

theorem toNat_ofNat_of_lt {m : Nat} (hm : m < 55296) :
    (Char.ofNat m).toNat = m := by
  rw [Char.ofNat, dif_pos (Or.inl hm)]
  rfl

theorem toNat_toUpper (c : Char) :
    c.toUpper.toNat = if 97 ≤ c.toNat ∧ c.toNat ≤ 122 then c.toNat - 32 else c.toNat := by
  unfold Char.toUpper
  by_cases h : 97 ≤ c.toNat ∧ c.toNat ≤ 122
  · rw [if_pos ⟨h.1, h.2⟩, if_pos h]
    exact toNat_ofNat_of_lt (by omega)
  · rw [if_neg, if_neg h]
    intro hc
    exact h ⟨hc.1, hc.2⟩

theorem toNat_inj {c d : Char} (h : c.toNat = d.toNat) : c = d := by
  apply Char.ext
  apply UInt32.eq_of_toBitVec_eq
  apply BitVec.eq_of_toNat_eq
  exact h

theorem toUpper_toUpper (c : Char) : c.toUpper.toUpper = c.toUpper := by
  apply toNat_inj
  rw [toNat_toUpper, toNat_toUpper c]
  by_cases h : 97 ≤ c.toNat ∧ c.toNat ≤ 122
  · rw [if_pos h, if_neg (by omega)]
  · rw [if_neg h, if_neg h]

theorem toUpper_eq_iff_of_high {c d : Char} (hd : d.toNat < 65) :
    c.toUpper = d ↔ c = d := by
  constructor
  · intro h
    have hn : c.toUpper.toNat = d.toNat := by rw [h]
    rw [toNat_toUpper] at hn
    by_cases hc : 97 ≤ c.toNat ∧ c.toNat ≤ 122
    · rw [if_pos hc] at hn; omega
    · rw [if_neg hc] at hn; exact toNat_inj hn
  · intro h
    subst h
    apply toNat_inj
    rw [toNat_toUpper, if_neg (by omega)]

theorem space_toNat : (' ' : Char).toNat = 32 := rfl

theorem hyphen_toNat : ('-' : Char).toNat = 45 := rfl

/- ### Normalization lemmas -/

theorem removeAll_eq_filter (c : Char) (l : List Char) :
    removeAll c l = l.filter (fun x => !(x == c)) := by
  induction l with
  | nil => rfl
  | cons x xs ih =>
    by_cases h : x = c <;> simp [removeAll, h, ih]

/-- The characters that survive normalization: everything except space and
hyphen. -/
def keepChar (x : Char) : Bool := !(x == '-') && !(x == ' ')

theorem pyNormalize_eq_filter (s : List Char) :
    pyNormalize s = (pyUpper s).filter keepChar := by
  unfold pyNormalize
  rw [removeAll_eq_filter, removeAll_eq_filter, List.filter_filter]
  rfl

theorem toUpper_space_iff (x : Char) : x.toUpper = ' ' ↔ x = ' ' :=
  toUpper_eq_iff_of_high (by rw [space_toNat]; omega)

theorem toUpper_hyphen_iff (x : Char) : x.toUpper = '-' ↔ x = '-' :=
  toUpper_eq_iff_of_high (by rw [hyphen_toNat]; omega)

theorem keepChar_toUpper (x : Char) : keepChar x.toUpper = keepChar x := by
  unfold keepChar
  have h1 : (x.toUpper == '-') = (x == '-') := by
    by_cases h : x = '-'
    · simp [h, (toUpper_hyphen_iff x).2 h]
    · have hne : ¬ x.toUpper = '-' := fun hx => h ((toUpper_hyphen_iff x).1 hx)
      simp [h, hne]
  have h2 : (x.toUpper == ' ') = (x == ' ') := by
    by_cases h : x = ' '
    · simp [h, (toUpper_space_iff x).2 h]
    · have hne : ¬ x.toUpper = ' ' := fun hx => h ((toUpper_space_iff x).1 hx)
      simp [h, hne]
  rw [h1, h2]

theorem pyUpper_filter_keep (l : List Char) :
    pyUpper (l.filter keepChar) = (pyUpper l).filter keepChar := by
  unfold pyUpper
  rw [List.filter_map]
  congr 1
  apply List.filter_congr
  intro a _
  exact (keepChar_toUpper a).symm

theorem pyUpper_pyUpper (l : List Char) : pyUpper (pyUpper l) = pyUpper l := by
  simp [pyUpper, Function.comp_def, toUpper_toUpper]

theorem pyNormalize_idem (s : List Char) :
    pyNormalize (pyNormalize s) = pyNormalize s := by
  rw [pyNormalize_eq_filter, pyNormalize_eq_filter, pyUpper_filter_keep,
    pyUpper_pyUpper, List.filter_filter]
  apply List.filter_congr
  intro a _
  exact Bool.and_self (keepChar a)

/- ### IBAN validator (modelled from the spec) -/

/-- Modelled from the spec: the closed set of IBAN failure kinds
(`InvalidLength`, `InvalidCountryCode`, `CountryNotAllowed`,
`UnknownCountry`, `InvalidFormat`, `ChecksumMismatch`). -/
inductive IBANError where
  | InvalidLength
  | InvalidCountryCode
  | CountryNotAllowed
  | UnknownCountry
  | InvalidFormat
  | ChecksumMismatch
deriving DecidableEq

/-- Modelled from the spec: the validator configuration
`{use_nordea_extensions, include_countries}`; `none` models the Python
default `include_countries=None`. -/
structure ValidationConfig where
  use_nordea_extensions : Bool
  include_countries : Option (List (List Char))
deriving DecidableEq

/-- The defaults of `IBANField.__init__`
(`src/django_iban/fields.py`, line 36):
`use_nordea_extensions=False, include_countries=None`. -/
def defaultConfig : ValidationConfig := ⟨false, none⟩

/-- `IBANField.__init__` (`src/django_iban/fields.py`, line 37) applies
`kwargs.setdefault('max_length', 34)`: an explicitly supplied maximum
length is kept, otherwise 34 is used. -/
def ibanFieldMaxLength (explicit : Option Nat) : Nat := explicit.getD 34

/-- Modelled from the spec: the standard ISO sub-table of the Country Rule
Table, mapping a country code to the fixed total IBAN length for that
country (the registered lengths for the countries exercised by the spec's
examples). -/
def IBAN_COUNTRY_CODE_LENGTH : List (List Char × Nat) :=
  [(['B', 'E'], 16), (['D', 'E'], 22), (['E', 'S'], 24), (['F', 'R'], 27),
   (['G', 'B'], 22), (['L', 'U'], 20), (['N', 'L'], 18)]

/-- Modelled from the spec: the Nordea-extension sub-table of non-ISO
country lengths, consulted only when `use_nordea_extensions` is set. -/
def NORDEA_COUNTRY_CODE_LENGTH : List (List Char × Nat) :=
  [(['A', 'O'], 25), (['E', 'G'], 27), (['M', 'Z'], 25)]

/-- Lookup of a country code in one sub-table. -/
def lookupTable (t : List (List Char × Nat)) (cc : List Char) : Option Nat :=
  (t.find? (fun p => p.1 == cc)).map Prod.snd

/-- Modelled from the spec: the Country Rule Table lookup; the standard
sub-table always takes precedence, the extension sub-table is consulted
only when `use_nordea_extensions` is true. -/
def lookupRule (useNordea : Bool) (cc : List Char) : Option Nat :=
  match lookupTable IBAN_COUNTRY_CODE_LENGTH cc with
  | some n => some n
  | none => if useNordea then lookupTable NORDEA_COUNTRY_CODE_LENGTH cc else none

/-- Is the character an uppercase letter or a decimal digit? -/
def isAlnumUpper (c : Char) : Bool := c.isUpper || c.isDigit

/-- Step 1: overall length between 2 and 34. -/
def checkLenOverall (v : List Char) : Bool :=
  decide (2 ≤ v.length) && decide (v.length ≤ 34)

/-- Step 2: the first two characters are uppercase letters. -/
def checkCountryChars (v : List Char) : Bool := (v.take 2).all Char.isUpper

/-- Step 3: when a non-empty allow-list is configured the country must be
a member; `none` and the empty list impose no restriction. -/
def checkAllowed (ic : Option (List (List Char))) (cc : List Char) : Bool :=
  match ic with
  | none => true
  | some l => l.isEmpty || l.contains cc

/-- Step 6: check digits (positions 2-3) are decimal digits and the BBAN
(positions 4 and up) is uppercase alphanumeric. -/
def checkFormat (v : List Char) : Bool :=
  ((v.drop 2).take 2).all Char.isDigit && (v.drop 4).all isAlnumUpper

/-- The numeric reading of an IBAN character: digits at face value,
letters A-Z as `(ord(c) - ord('A')) + 10`. -/
def charValue (c : Char) : Nat :=
  if c.isDigit then c.toNat - 48 else c.toNat - 55

/-- Reading of a character sequence as one decimal numeral, a digit
contributing one decimal digit and a letter its two-digit value. -/
def ibanNumber (s : List Char) : Nat :=
  s.foldl (fun acc c => if c.isDigit then acc * 10 + charValue c else acc * 100 + charValue c) 0

/-- Step 7: the MOD-97 condition on the rearranged string (first four
characters moved to the end). -/
def checksumOk (v : List Char) : Bool :=
  ibanNumber (v.drop 4 ++ v.take 4) % 97 == 1

/-- A successful validation result: the normalized string with its
attached country code. -/
structure IBANResult where
  country : List Char
  value : List Char
deriving DecidableEq

/-- Modelled from the spec: the seven checks of the IBAN validation
algorithm, applied in order to the already-normalized string,
short-circuiting on the first failure. -/
def ibanChecks (cfg : ValidationConfig) (v : List Char) : Except IBANError IBANResult :=
  if checkLenOverall v then
    if checkCountryChars v then
      if checkAllowed cfg.include_countries (v.take 2) then
        match lookupRule cfg.use_nordea_extensions (v.take 2) with
        | some len =>
          if v.length == len then
            if checkFormat v then
              if checksumOk v then .ok ⟨v.take 2, v⟩
              else .error .ChecksumMismatch
            else .error .InvalidFormat
          else .error .InvalidLength
        | none => .error .UnknownCountry
      else .error .CountryNotAllowed
    else .error .InvalidCountryCode
  else .error .InvalidLength

/-- Modelled from the spec: `IBANValidator` — normalize the raw string,
then run the checks. -/
def validateIBAN (cfg : ValidationConfig) (raw : List Char) : Except IBANError IBANResult :=
  ibanChecks cfg (pyNormalize raw)

/- ### SWIFT-BIC validator (modelled from the spec) -/

/-- Modelled from the spec: the closed set of BIC failure kinds. -/
inductive BICError where
  | InvalidLength
  | InvalidFormat
deriving DecidableEq

/-- `SWIFTBICField.__init__` (`src/django_iban/fields.py`, line 61) applies
`kwargs.setdefault('max_length', 11)`. -/
def swiftBicFieldMaxLength (explicit : Option Nat) : Nat := explicit.getD 11

/-- Modelled from the spec: `swift_bic_validator` — length must be exactly
8 or 11; characters 0-3 and 4-5 must be uppercase letters; characters 6-7
must be uppercase alphanumeric; for length 11, characters 8-10 must be
uppercase alphanumeric.  No checksum is computed. -/
def swift_bic_validator (s : List Char) : Except BICError (List Char) :=
  if s.length == 8 || s.length == 11 then
    if (s.take 4).all Char.isUpper then
      if ((s.drop 4).take 2).all Char.isUpper then
        if ((s.drop 6).take 2).all isAlnumUpper then
          if (s.drop 8).all isAlnumUpper then .ok s
          else .error .InvalidFormat
        else .error .InvalidFormat
      else .error .InvalidFormat
    else .error .InvalidFormat
  else .error .InvalidLength

/- ### The checksum numeral as a digit string -/

/-- The claim's view of the checksum conversion: each decimal digit kept at
face value, each letter replaced by the two decimal digits of its value
`(ord(c) - ord('A')) + 10`. -/
def ibanDigits (s : List Char) : List Nat :=
  s.flatMap (fun c =>
    if c.isDigit then [charValue c] else [charValue c / 10, charValue c % 10])

/-- Reading a digit sequence as one decimal numeral. -/
def numeralOfDigits (ds : List Nat) : Nat :=
  ds.foldl (fun acc d => acc * 10 + d) 0

theorem ibanNumber_foldl (s : List Char) : ∀ acc : Nat,
    s.foldl (fun acc c => if c.isDigit then acc * 10 + charValue c else acc * 100 + charValue c) acc =
      (ibanDigits s).foldl (fun acc d => acc * 10 + d) acc := by
  induction s with
  | nil => intro acc; rfl
  | cons c cs ih =>
    intro acc
    by_cases h : c.isDigit
    · simp only [List.foldl_cons, ibanDigits, List.flatMap_cons, if_pos h,
        List.cons_append, List.nil_append, List.foldl_append]
      rw [ih]
      simp [ibanDigits]
    · simp only [List.foldl_cons, ibanDigits, List.flatMap_cons, if_neg h,
        List.cons_append, List.nil_append, List.foldl_append]
      rw [ih]
      have hd : 10 * (charValue c / 10) + charValue c % 10 = charValue c :=
        Nat.div_add_mod (charValue c) 10
      have : (acc * 10 + charValue c / 10) * 10 + charValue c % 10 = acc * 100 + charValue c := by
        omega
      rw [this]
      simp [ibanDigits]

theorem ibanNumber_eq_numeral (s : List Char) :
    ibanNumber s = numeralOfDigits (ibanDigits s) :=
  ibanNumber_foldl s 0

/- ### Helper lemmas about the validator -/

theorem ibanChecks_ok_value {cfg : ValidationConfig} {v : List Char} {r : IBANResult}
    (h : ibanChecks cfg v = .ok r) : r.value = v ∧ r.country = v.take 2 := by
  unfold ibanChecks at h
  repeat' split at h
  all_goals first
    | (cases h; exact ⟨rfl, rfl⟩)
    | exact absurd h (by simp)

/- ### Claim theorems -/

/-- Claim C2: for every non-`None` input, `IBANField.to_python` returns the
uppercased form of the input with every space and every hyphen removed and
nothing else changed — that is, exactly the uppercase image filtered of
spaces and hyphens, in order. -/
theorem to_python_normalizes (s : List Char) :
    to_python (some s) = some ((pyUpper s).filter (fun x => !(x == ' ' || x == '-'))) := by
  simp only [to_python, pyNormalize_eq_filter]
  congr 1
  apply List.filter_congr
  intro a _
  simp [keepChar, Bool.not_or, Bool.and_comm]

/-- Claim C3: the normalization performed by `IBANField.to_python` on
non-`None` input is idempotent. -/
theorem normalize_idempotent (s : List Char) :
    to_python (to_python (some s)) = to_python (some s) := by
  simp only [to_python]
  rw [pyNormalize_idem]

/-- Claim C10: `IBANField.to_python` passes `None` through unchanged, and
normalization is applied only to non-`None` values. -/
theorem to_python_none :
    to_python none = none ∧ ∀ s : List Char, to_python (some s) = some (pyNormalize s) :=
  ⟨rfl, fun _ => rfl⟩

/-- Claim C9: validation is a pure function of the input and the
configuration, and is stable under normalization — whenever validation
succeeds, re-validating the normalized output it returned yields the very
same successful result under the same configuration. -/
theorem iban_validate_stable (cfg : ValidationConfig) (raw : List Char) (r : IBANResult)
    (h : validateIBAN cfg raw = .ok r) : validateIBAN cfg r.value = .ok r := by
  unfold validateIBAN at h ⊢
  have hv := ibanChecks_ok_value h
  rw [hv.1, pyNormalize_idem]
  exact h

/-- Witness for C9 at the spec's example IBAN, entered with separators. -/
theorem iban_validate_stable_witness :
    validateIBAN defaultConfig (String.toList "GB82WEST12345698765432") =
      .ok ⟨['G', 'B'], String.toList "GB82WEST12345698765432"⟩ :=
  iban_validate_stable defaultConfig (String.toList "GB82 WEST 1234 5698 7654 32")
    ⟨['G', 'B'], String.toList "GB82WEST12345698765432"⟩ rfl

/-- Claim C1: for every input passing all six structural checks, validation
succeeds exactly when moving the first four characters of the normalized
string to the end, replacing each letter by the two decimal digits of
`(ord(c) - ord('A')) + 10`, keeping digits at face value, and reading the
concatenation as one decimal numeral leaves remainder 1 modulo 97; when the
remainder differs from 1 the result is `ChecksumMismatch`.  In particular
`GB82WEST12345698765432` validates with country `GB`. -/
theorem iban_checksum_spec :
    (∀ (cfg : ValidationConfig) (raw : List Char) (L : Nat),
      checkLenOverall (pyNormalize raw) = true →
      checkCountryChars (pyNormalize raw) = true →
      checkAllowed cfg.include_countries ((pyNormalize raw).take 2) = true →
      lookupRule cfg.use_nordea_extensions ((pyNormalize raw).take 2) = some L →
      (pyNormalize raw).length = L →
      checkFormat (pyNormalize raw) = true →
      ((validateIBAN cfg raw =
          .ok ⟨(pyNormalize raw).take 2, pyNormalize raw⟩ ↔
        numeralOfDigits (ibanDigits ((pyNormalize raw).drop 4 ++ (pyNormalize raw).take 4)) % 97 = 1) ∧
       (numeralOfDigits (ibanDigits ((pyNormalize raw).drop 4 ++ (pyNormalize raw).take 4)) % 97 ≠ 1 →
        validateIBAN cfg raw = .error .ChecksumMismatch))) ∧
    validateIBAN defaultConfig (String.toList "GB82WEST12345698765432") =
      .ok ⟨['G', 'B'], String.toList "GB82WEST12345698765432"⟩ := by
  constructor
  · intro cfg raw L h1 h2 h3 h4 h5 h6
    unfold validateIBAN ibanChecks
    rw [if_pos h1, if_pos h2, if_pos h3]
    simp only [h4]
    have h5b : ((pyNormalize raw).length == L) = true := by simp [h5]
    rw [if_pos h5b, if_pos h6]
    by_cases hc : checksumOk (pyNormalize raw) = true
    · have hnum : numeralOfDigits
          (ibanDigits ((pyNormalize raw).drop 4 ++ (pyNormalize raw).take 4)) % 97 = 1 := by
        unfold checksumOk at hc
        rw [ibanNumber_eq_numeral] at hc
        exact eq_of_beq hc
      rw [if_pos hc]
      exact ⟨⟨fun _ => hnum, fun _ => rfl⟩, fun hne => absurd hnum hne⟩
    · have hnum : ¬ numeralOfDigits
          (ibanDigits ((pyNormalize raw).drop 4 ++ (pyNormalize raw).take 4)) % 97 = 1 := by
        intro he
        apply hc
        unfold checksumOk
        rw [ibanNumber_eq_numeral, he]
        rfl
      rw [if_neg hc]
      refine ⟨⟨fun hok => ?_, fun he => absurd he hnum⟩, fun _ => rfl⟩
      exact absurd hok (by simp)
  · rfl

/-- Witness for C1: the spec's known-valid IBAN `GB82WEST12345698765432`
passes every structural check and its rearranged numeral leaves remainder
1 modulo 97, so validation succeeds with country `GB`. -/
theorem iban_checksum_spec_witness :
    validateIBAN defaultConfig (String.toList "GB82WEST12345698765432") =
      .ok ⟨(pyNormalize (String.toList "GB82WEST12345698765432")).take 2,
        pyNormalize (String.toList "GB82WEST12345698765432")⟩ :=
  ((iban_checksum_spec.1 defaultConfig (String.toList "GB82WEST12345698765432") 22
    rfl rfl rfl rfl rfl rfl).1).mpr (by decide)

/-- Claim C4: the seven checks run in the stated order, short-circuiting on
the first failure with exactly the failure kind of that step
(`InvalidLength`, `InvalidCountryCode`, `CountryNotAllowed`,
`UnknownCountry`, `InvalidLength`, `InvalidFormat`, `ChecksumMismatch`),
and validation always returns a tagged result. -/
theorem iban_validate_order (cfg : ValidationConfig) (raw : List Char) :
    (checkLenOverall (pyNormalize raw) = false →
      validateIBAN cfg raw = .error .InvalidLength) ∧
    (checkLenOverall (pyNormalize raw) = true →
      checkCountryChars (pyNormalize raw) = false →
      validateIBAN cfg raw = .error .InvalidCountryCode) ∧
    (checkLenOverall (pyNormalize raw) = true →
      checkCountryChars (pyNormalize raw) = true →
      checkAllowed cfg.include_countries ((pyNormalize raw).take 2) = false →
      validateIBAN cfg raw = .error .CountryNotAllowed) ∧
    (checkLenOverall (pyNormalize raw) = true →
      checkCountryChars (pyNormalize raw) = true →
      checkAllowed cfg.include_countries ((pyNormalize raw).take 2) = true →
      lookupRule cfg.use_nordea_extensions ((pyNormalize raw).take 2) = none →
      validateIBAN cfg raw = .error .UnknownCountry) ∧
    (∀ L : Nat, checkLenOverall (pyNormalize raw) = true →
      checkCountryChars (pyNormalize raw) = true →
      checkAllowed cfg.include_countries ((pyNormalize raw).take 2) = true →
      lookupRule cfg.use_nordea_extensions ((pyNormalize raw).take 2) = some L →
      ((pyNormalize raw).length == L) = false →
      validateIBAN cfg raw = .error .InvalidLength) ∧
    (∀ L : Nat, checkLenOverall (pyNormalize raw) = true →
      checkCountryChars (pyNormalize raw) = true →
      checkAllowed cfg.include_countries ((pyNormalize raw).take 2) = true →
      lookupRule cfg.use_nordea_extensions ((pyNormalize raw).take 2) = some L →
      ((pyNormalize raw).length == L) = true →
      checkFormat (pyNormalize raw) = false →
      validateIBAN cfg raw = .error .InvalidFormat) ∧
    (∀ L : Nat, checkLenOverall (pyNormalize raw) = true →
      checkCountryChars (pyNormalize raw) = true →
      checkAllowed cfg.include_countries ((pyNormalize raw).take 2) = true →
      lookupRule cfg.use_nordea_extensions ((pyNormalize raw).take 2) = some L →
      ((pyNormalize raw).length == L) = true →
      checkFormat (pyNormalize raw) = true →
      checksumOk (pyNormalize raw) = false →
      validateIBAN cfg raw = .error .ChecksumMismatch) ∧
    (∀ L : Nat, checkLenOverall (pyNormalize raw) = true →
      checkCountryChars (pyNormalize raw) = true →
      checkAllowed cfg.include_countries ((pyNormalize raw).take 2) = true →
      lookupRule cfg.use_nordea_extensions ((pyNormalize raw).take 2) = some L →
      ((pyNormalize raw).length == L) = true →
      checkFormat (pyNormalize raw) = true →
      checksumOk (pyNormalize raw) = true →
      validateIBAN cfg raw = .ok ⟨(pyNormalize raw).take 2, pyNormalize raw⟩) ∧
    ((∃ e, validateIBAN cfg raw = .error e) ∨ ∃ r, validateIBAN cfg raw = .ok r) := by
  refine ⟨?_, ?_, ?_, ?_, ?_, ?_, ?_, ?_, ?_⟩
  · intro h1
    simp [validateIBAN, ibanChecks, h1]
  · intro h1 h2
    simp [validateIBAN, ibanChecks, h1, h2]
  · intro h1 h2 h3
    simp [validateIBAN, ibanChecks, h1, h2, h3]
  · intro h1 h2 h3 h4
    simp [validateIBAN, ibanChecks, h1, h2, h3, h4]
  · intro L h1 h2 h3 h4 h5
    simp [validateIBAN, ibanChecks, h1, h2, h3, h4, h5]
  · intro L h1 h2 h3 h4 h5 h6
    simp [validateIBAN, ibanChecks, h1, h2, h3, h4, h5, h6]
  · intro L h1 h2 h3 h4 h5 h6 h7
    simp [validateIBAN, ibanChecks, h1, h2, h3, h4, h5, h6, h7]
  · intro L h1 h2 h3 h4 h5 h6 h7
    simp [validateIBAN, ibanChecks, h1, h2, h3, h4, h5, h6, h7]
  · cases h : validateIBAN cfg raw with
    | error e => exact Or.inl ⟨e, rfl⟩
    | ok r => exact Or.inr ⟨r, rfl⟩

/-- Witness for C4: one concrete input per step, each failing exactly that
step, plus a fully valid input. -/
theorem iban_validate_order_witness :
    validateIBAN defaultConfig (String.toList "X") = .error .InvalidLength ∧
    validateIBAN defaultConfig (String.toList "1B82WEST12345698765432") =
      .error .InvalidCountryCode ∧
    validateIBAN ⟨false, some [['N', 'L'], ['B', 'E'], ['L', 'U']]⟩
      (String.toList "DE89370400440532013000") = .error .CountryNotAllowed ∧
    validateIBAN defaultConfig (String.toList "EG000") = .error .UnknownCountry ∧
    validateIBAN defaultConfig (String.toList "GB82WEST1234569876543") =
      .error .InvalidLength ∧
    validateIBAN defaultConfig (String.toList "GBXXWEST12345698765432") =
      .error .InvalidFormat ∧
    validateIBAN defaultConfig (String.toList "GB00WEST12345698765432") =
      .error .ChecksumMismatch ∧
    validateIBAN defaultConfig (String.toList "GB82WEST12345698765432") =
      .ok ⟨(pyNormalize (String.toList "GB82WEST12345698765432")).take 2,
        pyNormalize (String.toList "GB82WEST12345698765432")⟩ :=
  ⟨(iban_validate_order defaultConfig (String.toList "X")).1 rfl,
   (iban_validate_order defaultConfig (String.toList "1B82WEST12345698765432")).2.1 rfl rfl,
   (iban_validate_order ⟨false, some [['N', 'L'], ['B', 'E'], ['L', 'U']]⟩
     (String.toList "DE89370400440532013000")).2.2.1 rfl rfl rfl,
   (iban_validate_order defaultConfig (String.toList "EG000")).2.2.2.1 rfl rfl rfl rfl,
   (iban_validate_order defaultConfig
     (String.toList "GB82WEST1234569876543")).2.2.2.2.1 22 rfl rfl rfl rfl rfl,
   (iban_validate_order defaultConfig
     (String.toList "GBXXWEST12345698765432")).2.2.2.2.2.1 22 rfl rfl rfl rfl rfl rfl,
   (iban_validate_order defaultConfig
     (String.toList "GB00WEST12345698765432")).2.2.2.2.2.2.1 22 rfl rfl rfl rfl rfl rfl rfl,
   (iban_validate_order defaultConfig
     (String.toList "GB82WEST12345698765432")).2.2.2.2.2.2.2.1 22 rfl rfl rfl rfl rfl rfl rfl⟩

/-- Claim C5: a normalized length below 2 or above 34 fails with
`InvalidLength`; an input that passes country rule lookup but whose
normalized length differs from the rule's total length fails with
`InvalidLength`; and the field's default maximum stored length is 34. -/
theorem iban_length_checks :
    (∀ (cfg : ValidationConfig) (raw : List Char),
      (pyNormalize raw).length < 2 ∨ (pyNormalize raw).length > 34 →
      validateIBAN cfg raw = .error .InvalidLength) ∧
    (∀ (cfg : ValidationConfig) (raw : List Char) (L : Nat),
      checkLenOverall (pyNormalize raw) = true →
      checkCountryChars (pyNormalize raw) = true →
      checkAllowed cfg.include_countries ((pyNormalize raw).take 2) = true →
      lookupRule cfg.use_nordea_extensions ((pyNormalize raw).take 2) = some L →
      (pyNormalize raw).length ≠ L →
      validateIBAN cfg raw = .error .InvalidLength) ∧
    ibanFieldMaxLength none = 34 := by
  refine ⟨?_, ?_, rfl⟩
  · intro cfg raw h
    have h1 : checkLenOverall (pyNormalize raw) = false := by
      simp only [checkLenOverall, Bool.and_eq_false_iff, decide_eq_false_iff_not]
      omega
    simp [validateIBAN, ibanChecks, h1]
  · intro cfg raw L h1 h2 h3 h4 h5
    have h5b : ((pyNormalize raw).length == L) = false := by simp [h5]
    simp [validateIBAN, ibanChecks, h1, h2, h3, h4, h5b]

/-- Witness for C5: a one-character input fails the overall length check,
and truncating the valid GB IBAN by one character fails the exact
per-country length check. -/
theorem iban_length_checks_witness :
    validateIBAN defaultConfig (String.toList "GB82WEST1234569876543") =
      .error .InvalidLength ∧
    validateIBAN defaultConfig (String.toList "GB82WEST123456987654321234567890123") =
      .error .InvalidLength ∧
    ibanFieldMaxLength none = 34 :=
  ⟨iban_length_checks.2.1 defaultConfig (String.toList "GB82WEST1234569876543") 22
      rfl rfl rfl rfl (by decide),
   iban_length_checks.1 defaultConfig
      (String.toList "GB82WEST123456987654321234567890123") (by decide),
   iban_length_checks.2.2⟩

/-- Claim C6: with a non-empty allow-list, an IBAN whose extracted country
is not a member fails with `CountryNotAllowed` — in particular a
structurally valid DE IBAN against the allow-list NL, BE, LU — while with
an empty or absent allow-list (the default is `None`) no input is ever
rejected with `CountryNotAllowed`. -/
theorem iban_allowlist :
    (∀ (cfg : ValidationConfig) (raw : List Char) (l : List (List Char)),
      cfg.include_countries = some l → l ≠ [] →
      checkLenOverall (pyNormalize raw) = true →
      checkCountryChars (pyNormalize raw) = true →
      (pyNormalize raw).take 2 ∉ l →
      validateIBAN cfg raw = .error .CountryNotAllowed) ∧
    validateIBAN ⟨false, some [['N', 'L'], ['B', 'E'], ['L', 'U']]⟩
      (String.toList "DE89370400440532013000") = .error .CountryNotAllowed ∧
    (∀ (cfg : ValidationConfig) (raw : List Char),
      cfg.include_countries = none ∨ cfg.include_countries = some [] →
      validateIBAN cfg raw ≠ .error .CountryNotAllowed) ∧
    defaultConfig.include_countries = none := by
  refine ⟨?_, rfl, ?_, rfl⟩
  · intro cfg raw l hic hne h1 h2 hmem
    have h3 : checkAllowed cfg.include_countries ((pyNormalize raw).take 2) = false := by
      rw [hic]
      unfold checkAllowed
      simp [hne]
      exact hmem
    simp [validateIBAN, ibanChecks, h1, h2, h3]
  · intro cfg raw hor hcontra
    have h3 : checkAllowed cfg.include_countries ((pyNormalize raw).take 2) = true := by
      rcases hor with h | h <;> simp [checkAllowed, h]
    unfold validateIBAN ibanChecks at hcontra
    repeat' split at hcontra
    all_goals simp_all

/-- Witness for C6: the DE IBAN against the allow-list NL, BE, LU is
rejected with `CountryNotAllowed`, and under the default configuration the
same IBAN is not rejected for that reason. -/
theorem iban_allowlist_witness :
    validateIBAN ⟨false, some [['N', 'L'], ['B', 'E'], ['L', 'U']]⟩
      (String.toList "DE89370400440532013000") = .error .CountryNotAllowed ∧
    validateIBAN defaultConfig (String.toList "DE89370400440532013000") ≠
      .error .CountryNotAllowed :=
  ⟨iban_allowlist.1 ⟨false, some [['N', 'L'], ['B', 'E'], ['L', 'U']]⟩
      (String.toList "DE89370400440532013000") [['N', 'L'], ['B', 'E'], ['L', 'U']]
      rfl (by decide) rfl rfl (by decide),
   iban_allowlist.2.2.1 defaultConfig (String.toList "DE89370400440532013000")
      (Or.inl rfl)⟩

/-- Claim C7: a country present only in the Nordea extension table yields
`UnknownCountry` when `use_nordea_extensions` is false, while with it set
to true the same input is never rejected as `UnknownCountry` (it proceeds
to the remaining checks); the field default is
`use_nordea_extensions=False`. -/
theorem iban_nordea_gating :
    (∀ (raw : List Char) (ic : Option (List (List Char))) (L : Nat),
      lookupTable IBAN_COUNTRY_CODE_LENGTH ((pyNormalize raw).take 2) = none →
      lookupTable NORDEA_COUNTRY_CODE_LENGTH ((pyNormalize raw).take 2) = some L →
      checkLenOverall (pyNormalize raw) = true →
      checkCountryChars (pyNormalize raw) = true →
      checkAllowed ic ((pyNormalize raw).take 2) = true →
      (validateIBAN ⟨false, ic⟩ raw = .error .UnknownCountry ∧
       validateIBAN ⟨true, ic⟩ raw ≠ .error .UnknownCountry)) ∧
    defaultConfig.use_nordea_extensions = false := by
  refine ⟨?_, rfl⟩
  intro raw ic L hstd hnor h1 h2 h3
  constructor
  · have h4 : lookupRule false ((pyNormalize raw).take 2) = none := by
      unfold lookupRule
      simp [hstd]
    simp [validateIBAN, ibanChecks, h1, h2, h3, h4]
  · have h4 : lookupRule true ((pyNormalize raw).take 2) = some L := by
      unfold lookupRule
      simp [hstd, hnor]
    intro hcontra
    unfold validateIBAN ibanChecks at hcontra
    rw [if_pos h1, if_pos h2, if_pos h3] at hcontra
    simp only [h4] at hcontra
    repeat' split at hcontra
    all_goals simp_all

/-- Witness for C7: `EG` appears only in the extension table; the input
`EG000` passes the first three checks, fails with `UnknownCountry` without
the extensions and with a different kind (its length is wrong for EG) with
them. -/
theorem iban_nordea_gating_witness :
    validateIBAN ⟨false, none⟩ (String.toList "EG000") = .error .UnknownCountry ∧
    validateIBAN ⟨true, none⟩ (String.toList "EG000") ≠ .error .UnknownCountry :=
  iban_nordea_gating.1 (String.toList "EG000") none 27 rfl rfl rfl rfl rfl

/-- Claim C8: SWIFT-BIC validation accepts exactly the strings of length 8
or 11 whose characters 0-3 and 4-5 are uppercase letters, characters 6-7
uppercase alphanumeric and, for length 11, characters 8-10 uppercase
alphanumeric; any other length gives `InvalidLength`, any character-class
violation gives `InvalidFormat`, and no checksum is involved.  In
particular `DEUTDEFF` and `DEUTDEFF500` validate, `DEUTDEFF5` fails with
`InvalidLength` and `1EUTDEFF` fails with `InvalidFormat`. -/
theorem swift_bic_spec :
    (∀ s : List Char,
      ((∃ r, swift_bic_validator s = .ok r) ↔
        ((s.length = 8 ∨ s.length = 11) ∧
         (∀ c ∈ s.take 4, c.isUpper = true) ∧
         (∀ c ∈ (s.drop 4).take 2, c.isUpper = true) ∧
         (∀ c ∈ (s.drop 6).take 2, isAlnumUpper c = true) ∧
         (s.length = 11 → ∀ c ∈ s.drop 8, isAlnumUpper c = true))) ∧
      (s.length ≠ 8 → s.length ≠ 11 →
        swift_bic_validator s = .error .InvalidLength) ∧
      ((s.length = 8 ∨ s.length = 11) →
        ((s.take 4).all Char.isUpper && ((s.drop 4).take 2).all Char.isUpper &&
          ((s.drop 6).take 2).all isAlnumUpper && (s.drop 8).all isAlnumUpper) = false →
        swift_bic_validator s = .error .InvalidFormat)) ∧
    swift_bic_validator (String.toList "DEUTDEFF") = .ok (String.toList "DEUTDEFF") ∧
    swift_bic_validator (String.toList "DEUTDEFF500") = .ok (String.toList "DEUTDEFF500") ∧
    swift_bic_validator (String.toList "DEUTDEFF5") = .error .InvalidLength ∧
    swift_bic_validator (String.toList "1EUTDEFF") = .error .InvalidFormat := by
  refine ⟨?_, rfl, rfl, rfl, rfl⟩
  intro s
  refine ⟨⟨?_, ?_⟩, ?_, ?_⟩
  · rintro ⟨r, hr⟩
    unfold swift_bic_validator at hr
    by_cases hlen : (s.length == 8 || s.length == 11) = true
    · rw [if_pos hlen] at hr
      by_cases hA : (s.take 4).all Char.isUpper = true
      · rw [if_pos hA] at hr
        by_cases hB : ((s.drop 4).take 2).all Char.isUpper = true
        · rw [if_pos hB] at hr
          by_cases hC : ((s.drop 6).take 2).all isAlnumUpper = true
          · rw [if_pos hC] at hr
            by_cases hD : (s.drop 8).all isAlnumUpper = true
            · refine ⟨?_, List.all_eq_true.1 hA, List.all_eq_true.1 hB,
                List.all_eq_true.1 hC, fun _ => List.all_eq_true.1 hD⟩
              simpa using hlen
            · rw [if_neg hD] at hr; exact absurd hr (by simp)
          · rw [if_neg hC] at hr; exact absurd hr (by simp)
        · rw [if_neg hB] at hr; exact absurd hr (by simp)
      · rw [if_neg hA] at hr; exact absurd hr (by simp)
    · rw [if_neg hlen] at hr; exact absurd hr (by simp)
  · rintro ⟨hlen, hA, hB, hC, hD⟩
    unfold swift_bic_validator
    have hlenB : (s.length == 8 || s.length == 11) = true := by
      rcases hlen with h | h <;> simp [h]
    rw [if_pos hlenB, if_pos (List.all_eq_true.2 hA), if_pos (List.all_eq_true.2 hB),
      if_pos (List.all_eq_true.2 hC)]
    have h8 : (s.drop 8).all isAlnumUpper = true := by
      rcases hlen with h | h
      · rw [List.drop_eq_nil_of_le (by omega)]; rfl
      · exact List.all_eq_true.2 (hD h)
    rw [if_pos h8]
    exact ⟨s, rfl⟩
  · intro h8 h11
    have hlenB : (s.length == 8 || s.length == 11) = false := by simp [h8, h11]
    simp [swift_bic_validator, hlenB]
  · intro hlen hfmt
    have hlenB : (s.length == 8 || s.length == 11) = true := by
      rcases hlen with h | h <;> simp [h]
    unfold swift_bic_validator
    rw [if_pos hlenB]
    by_cases hA : (s.take 4).all Char.isUpper = true
    · rw [if_pos hA]
      by_cases hB : ((s.drop 4).take 2).all Char.isUpper = true
      · rw [if_pos hB]
        by_cases hC : ((s.drop 6).take 2).all isAlnumUpper = true
        · rw [if_pos hC]
          by_cases hD : (s.drop 8).all isAlnumUpper = true
          · rw [hA, hB, hC, hD] at hfmt
            exact absurd hfmt (by simp)
          · rw [if_neg hD]
        · rw [if_neg hC]
      · rw [if_neg hB]
    · rw [if_neg hA]

/-- Witness for C8: the spec's four BIC examples, obtained from the general
characterization. -/
theorem swift_bic_spec_witness :
    swift_bic_validator (String.toList "DEUTDEFF5") = .error .InvalidLength ∧
    swift_bic_validator (String.toList "1EUTDEFF") = .error .InvalidFormat ∧
    ∃ r, swift_bic_validator (String.toList "DEUTDEFF500") = .ok r :=
  ⟨(swift_bic_spec.1 (String.toList "DEUTDEFF5")).2.1 (by decide) (by decide),
   (swift_bic_spec.1 (String.toList "1EUTDEFF")).2.2 (by decide) (by decide),
   ((swift_bic_spec.1 (String.toList "DEUTDEFF500")).1).2 (by decide)⟩

end DjangoIban
